import Mathlib

/-!
Verification of the event-ingestion admission path (`src/sentry/coreapi.py`):
credential resolution (`ClientApiHelper.project_key_from_auth`), payload caching and
task hand-off (`ClientApiHelper.insert_data_to_database`), and authentication
extraction (`ClientAuthHelper.auth_from_request` / `origin_from_request`).

The Python source is embedded shallowly: dictionaries become association lists,
exceptions become an `AdmissionError` sum returned through `Except` (or, for the
stateful insert path, an `Option AdmissionError` paired with the post-state so that
side effects performed before a raise are kept), and Python truthiness on optional
strings (`None` and `""` are falsy) is made explicit via `pyTruthy`.

Collaborators of the slice that live outside the given sources
(`ProjectKey.looks_like_api_key`, `parse_auth_header`, `cache_key_for_event`,
`sentry.utils.http.origin_from_request`, Django's `constant_time_compare`, and the
cache clients' failure mode) are modelled from the specification; each such
definition says so in its doc comment.
-/

/-- The error taxonomy of the admission path. `apiError`, `apiUnauthorized` and
`apiForbidden` embed the exception classes `APIError` / `APIUnauthorized` /
`APIForbidden` of the source, each carrying its message string; `suspiciousOperation`
embeds Django's `SuspiciousOperation` raised on conflicting authentication payloads
(the spec's `MalformedRequest`); `cacheUnavailable` is the spec's failure of an
unreachable backing cache store. -/
inductive AdmissionError where
  | apiError (msg : String)
  | apiUnauthorized (msg : String)
  | apiForbidden (msg : String)
  | suspiciousOperation (msg : String)
  | cacheUnavailable
deriving DecidableEq, Repr

/-- The HTTP status class attached to each error kind: `APIError.http_status = 400`,
`APIUnauthorized.http_status = 401`, `APIForbidden.http_status = 403` in the source;
`SuspiciousOperation` is turned into an HTTP 400 by the transport framework (the
spec's `400` for malformed requests). A cache failure carries no HTTP status in
this slice. -/
def AdmissionError.http_status : AdmissionError → Option Nat
  | .apiError _ => some 400
  | .apiUnauthorized _ => some 401
  | .apiForbidden _ => some 403
  | .suspiciousOperation _ => some 400
  | .cacheUnavailable => none

/-- Python truthiness of an optional string: `None` and the empty string are falsy. -/
def pyTruthy : Option String → Bool
  | none => false
  | some s => !s.isEmpty

/-- Python's `a or b` on an optional string `a` and a string `b`. -/
def pyOr (a : Option String) (b : String) : String :=
  if pyTruthy a then a.getD "" else b

/-- The `Auth` object of the source: the client-supplied authentication claim. -/
structure Auth where
  client : Option String
  version : String
  secret_key : Option String
  public_key : Option String
  is_public : Bool
deriving DecidableEq, Repr

/-- A provisioned project credential (`ProjectKey` record): `roles_store` embeds the
`pk.roles.store` capability flag. -/
structure ProjectKey where
  public_key : String
  secret_key : String
  project_id : Nat
  is_active : Bool
  roles_store : Bool
deriving DecidableEq, Repr

/-- The cache-fronted credential store, `ProjectKey.objects.get_from_cache`: lookup
by public key, `none` embeds the `ProjectKey.DoesNotExist` miss. -/
def ProjectKeyStore : Type := String → Option ProjectKey

/-- Modelled from the spec: `ProjectKey.looks_like_api_key` (not in this slice) —
the public key "matches a cheap structural pattern (fixed alphabet/length check)
before touching the credential store": 32 characters over a fixed hex alphabet. -/
def looks_like_api_key (k : String) : Bool :=
  k.length = 32 && k.toList.all fun c => c.isDigit || (c ≥ 'a' && c ≤ 'f')

/-- Modelled from the spec: Django's `constant_time_compare` (not in this slice) —
a timing-safe string comparison; functionally, equality of the two strings. -/
def constant_time_compare (a b : String) : Bool := a == b

/-- `ClientApiHelper.project_key_from_auth` (source lines 96-121): resolve a claim to
a credential. Checks in source order: public key truthy; structural pattern;
cache-fronted lookup; constant-time secret comparison against
`auth.secret_key or pk.secret_key` (Python `or`, so an absent or empty claim secret
compares the stored secret to itself); `is_active`; `roles.store`. -/
def ClientApiHelper.project_key_from_auth (store : ProjectKeyStore) (auth : Auth) :
    Except AdmissionError ProjectKey :=
  if !pyTruthy auth.public_key then
    .error (.apiUnauthorized "Invalid api key")
  else
    let k := auth.public_key.getD ""
    if !looks_like_api_key k then
      .error (.apiUnauthorized "Invalid api key")
    else
      match store k with
      | none => .error (.apiUnauthorized "Invalid api key")
      | some pk =>
        if !constant_time_compare pk.secret_key (pyOr auth.secret_key pk.secret_key) then
          .error (.apiUnauthorized "Invalid api key")
        else if !pk.is_active then
          .error (.apiUnauthorized "API key is disabled")
        else if !pk.roles_store then
          .error (.apiUnauthorized "Key does not allow event storage access")
        else
          .ok pk

/-- `ClientApiHelper.project_id_from_auth` (source lines 123-124). -/
def ClientApiHelper.project_id_from_auth (store : ProjectKeyStore) (auth : Auth) :
    Except AdmissionError Nat :=
  (ClientApiHelper.project_key_from_auth store auth).map ProjectKey.project_id

/-- An inbound HTTP request as the extractor sees it: query parameters (`request.GET`)
and headers (`request.META`, Django's `HTTP_`-prefixed keys), both as association
lists of strings. -/
structure Request where
  GET : List (String × String)
  META : List (String × String)

/-- Python dict lookup `d.get(k)` for a dict built from a key/value sequence:
on duplicate keys the last insertion wins. -/
def dictGet (d : List (String × String)) (k : String) : Option String :=
  d.reverse.lookup k

/-- Header lookup `request.META.get(k, "")`. -/
def metaGetD (req : Request) (k : String) : String :=
  (req.META.lookup k).getD ""

/-- Python string slicing `s[:n]`: the first `n` characters. (Stated over the
character list so that it computes by structural recursion.) -/
def strTake (s : String) (n : Nat) : String :=
  String.mk (s.data.take n)

/-- Python `s.lower()` restricted to the ASCII range the scheme test needs. -/
def strToLower (s : String) : String :=
  String.mk (s.data.map Char.toLower)

/-- The query parameters kept by the comprehension
`{k: request.GET[k] for k in request.GET if k[:7] == "sentry_"}`. -/
def queryAuthParams (req : Request) : List (String × String) :=
  req.GET.filter fun kv => strTake kv.1 7 == "sentry_"

/-- The scheme test `value[:7].lower() == "sentry "` applied to a header value. -/
def hasSentryScheme (v : String) : Bool :=
  strToLower (strTake v 7) == "sentry "

/-- Modelled from the spec: `parse_auth_header` (`sentry.utils.auth`, not in this
slice) — parses a header of the form `scheme key1=val1, key2=val2, ...` into its
key/value fields; an unparseable blob yields the empty dict. -/
def parse_auth_header (header : String) : List (String × String) :=
  match header.splitOn " " with
  | [] => []
  | [_] => []
  | _ :: rest =>
    let pieces := (String.intercalate " " rest).splitOn ","
    let pairs := pieces.map fun piece =>
      match piece.trim.splitOn "=" with
      | [k, v] => some (k, v)
      | _ => none
    if pairs.all Option.isSome then pairs.reduceOption else []

/-- Modelled from the spec: `sentry.utils.http.origin_from_request` (not in this
slice) — "Returns either the Origin or Referer value from the request headers".
Named with a `UtilsHttp` qualifier to keep it apart from the helper method below. -/
def UtilsHttp.origin_from_request (req : Request) : Option String :=
  match req.META.lookup "HTTP_ORIGIN" with
  | some o => some o
  | none => req.META.lookup "HTTP_REFERER"

/-- `ClientAuthHelper.origin_from_request` (source lines 193-200): the literal Origin
header value `"null"` short-circuits; otherwise fall back to the Origin-or-Referer
derivation. -/
def ClientAuthHelper.origin_from_request (req : Request) : Option String :=
  if req.META.lookup "HTTP_ORIGIN" = some "null" then some "null"
  else UtilsHttp.origin_from_request req

/-- The source of the authentication payload in `auth_from_request` (source lines
164-173): query parameters under the `sentry_` prefix, unless a scheme-prefixed
`X-Sentry-Auth` (or, failing that, `Authorization`) header is present — in which
case a non-empty query payload is a conflict (`SuspiciousOperation`, the spec's
`MalformedRequest`) and otherwise the header blob is parsed. -/
def authPayload (req : Request) : Except AdmissionError (List (String × String)) :=
  let result := queryAuthParams req
  if hasSentryScheme (metaGetD req "HTTP_X_SENTRY_AUTH") then
    if result.isEmpty then .ok (parse_auth_header (metaGetD req "HTTP_X_SENTRY_AUTH"))
    else .error (.suspiciousOperation "Multiple authentication payloads were detected.")
  else if hasSentryScheme (metaGetD req "HTTP_AUTHORIZATION") then
    if result.isEmpty then .ok (parse_auth_header (metaGetD req "HTTP_AUTHORIZATION"))
    else .error (.suspiciousOperation "Multiple authentication payloads were detected.")
  else .ok result

/-- `ClientAuthHelper.auth_from_request` (source lines 162-191): choose the single
authentication payload, reject an empty one, then build the `Auth` claim.
`version` embeds `six.text_type(result.get("sentry_version"))`, which renders a
missing version as the string `"None"`; a falsy client falls back to the
User-Agent header (the model keeps header values as strings, so the Latin-1
byte-decoding branch of the source is the identity here); `is_public` embeds
`bool(origin)`. -/
def ClientAuthHelper.auth_from_request (req : Request) : Except AdmissionError Auth :=
  match authPayload req with
  | .error e => .error e
  | .ok result =>
    if result.isEmpty then
      .error (.apiUnauthorized "Unable to find authentication information")
    else
      let origin := ClientAuthHelper.origin_from_request req
      let client0 := dictGet result "sentry_client"
      .ok
        { client := if pyTruthy client0 then client0 else req.META.lookup "HTTP_USER_AGENT"
          version :=
            match dictGet result "sentry_version" with
            | some v => v
            | none => "None"
          secret_key := dictGet result "sentry_secret"
          public_key := dictGet result "sentry_key"
          is_public := pyTruthy origin }

/-- The event payload as the insert path sees it: the fields it reads
(`data["event_id"]`, and the event identity used by the fingerprint), plus a flag
recording whether the value is one of the `CANONICAL_TYPES` wrappers (a
dict-like object that must be normalized to a plain mapping before caching). -/
structure EventData where
  event_id : String
  project : Nat
  canonical_wrapper : Bool
deriving DecidableEq, Repr

/-- The normalization `data = dict(data.items())` applied to canonical wrappers:
it preserves the items and strips the wrapper. -/
def canonicalizeEvent (d : EventData) : EventData :=
  { d with canonical_wrapper := false }

/-- Modelled from the spec: `cache_key_for_event` (`sentry.utils.cache`, not in this
slice) — a "deterministic fingerprint derived from event identity", so repeated
delivery of the same logical event collides on the same key. -/
def cache_key_for_event (d : EventData) : String :=
  "e:" ++ d.event_id ++ ":" ++ toString d.project

/-- A time-bounded key/value cache: entries are `(key, (value, ttl))`; `set`
overwrites by prepending, `get` reads the most recent entry for a key. -/
def cacheSet {α : Type} (c : List (String × (α × Nat))) (k : String) (v : α) (ttl : Nat) :
    List (String × (α × Nat)) :=
  (k, (v, ttl)) :: c

/-- Most recent entry stored under a key. -/
def cacheGet {α : Type} (c : List (String × (α × Nat))) (k : String) : Option (α × Nat) :=
  c.lookup k

/-- Attachments: an opaque list of binary blobs. -/
abbrev Attachments := List String

/-- The two downstream handlers a task can be dispatched to: `preprocess_event`
(normal ingestion) and `preprocess_event_from_reprocessing`. -/
inductive TaskHandler where
  | preprocess_event
  | preprocess_event_from_reprocessing
deriving DecidableEq, Repr

/-- The task handed to `task.delay(cache_key=..., start_time=..., event_id=...)`,
tagged with the handler it was dispatched to. -/
structure IngestTask where
  cache_key : String
  start_time : Nat
  event_id : String
  handler : TaskHandler
deriving DecidableEq, Repr

/-- The external stores the insert path writes to: the default (payload) cache, the
attachment cache, and the task queue (most recent first). -/
structure IngestState where
  default_cache : List (String × (EventData × Nat))
  attachment_cache : List (String × (Attachments × Nat))
  queue : List IngestTask
deriving DecidableEq, Repr

/-- Modelled from the spec: the backing cache stores live in a separate failure
domain and may be unreachable; a write against an unreachable store raises the
spec's `CacheUnavailable` instead of mutating it. Each flag says whether the
corresponding store is reachable during this request. -/
structure CacheEnv where
  default_cache_ok : Bool
  attachment_cache_ok : Bool
deriving DecidableEq, Repr

/-- The final dispatch `task = from_reprocessing and preprocess_event_from_reprocessing
or preprocess_event; task.delay(...)` (source lines 146-147). -/
def enqueueIngestTask (st : IngestState) (cache_key : String) (start_time : Nat)
    (event_id : String) (from_reprocessing : Bool) : IngestState × Option AdmissionError :=
  let handler :=
    if from_reprocessing then TaskHandler.preprocess_event_from_reprocessing
    else TaskHandler.preprocess_event
  ({ st with
      queue :=
        { cache_key := cache_key, start_time := start_time, event_id := event_id,
          handler := handler } :: st.queue },
    none)

/-- `ClientApiHelper.insert_data_to_database` (source lines 126-147): default the
start time to the wall clock `now`, canonicalize the payload, write it to the
default cache with a one-hour timeout, write the attachments (if any) under the
same key and timeout, then enqueue the ingest task. A raise part-way through
keeps the side effects already performed, so the function returns the post-state
together with the error, if any. -/
def ClientApiHelper.insert_data_to_database (env : CacheEnv) (now : Nat)
    (st : IngestState) (data : EventData) (start_time : Option Nat)
    (from_reprocessing : Bool) (attachments : Option Attachments) :
    IngestState × Option AdmissionError :=
  let start_time := start_time.getD now
  let data := canonicalizeEvent data
  let cache_timeout := 3600
  let cache_key := cache_key_for_event data
  if !env.default_cache_ok then (st, some .cacheUnavailable)
  else
    let st1 := { st with default_cache := cacheSet st.default_cache cache_key data cache_timeout }
    match attachments with
    | some atts =>
      if !env.attachment_cache_ok then (st1, some .cacheUnavailable)
      else
        let st2 :=
          { st1 with
              attachment_cache := cacheSet st1.attachment_cache cache_key atts cache_timeout }
        enqueueIngestTask st2 cache_key start_time data.event_id from_reprocessing
    | none => enqueueIngestTask st1 cache_key start_time data.event_id from_reprocessing

/-- A well-formed public key used by the concrete test fixtures below. -/
def fixtureKey : String := "abcdef0123456789abcdef0123456789"

/-- An active credential with the store capability and a non-empty secret. -/
def pkActive : ProjectKey :=
  { public_key := fixtureKey, secret_key := "topsecret", project_id := 42,
    is_active := true, roles_store := true }

/-- A store holding exactly `pkActive`. -/
def storeActive : ProjectKeyStore :=
  fun k => if k = fixtureKey then some pkActive else none

/-- The same credential, deactivated. -/
def pkInactive : ProjectKey := { pkActive with is_active := false }

/-- A store holding exactly `pkInactive`. -/
def storeInactive : ProjectKeyStore :=
  fun k => if k = fixtureKey then some pkInactive else none

/-- The same credential, lacking the store capability. -/
def pkNoStoreRole : ProjectKey := { pkActive with roles_store := false }

/-- A store holding exactly `pkNoStoreRole`. -/
def storeNoStoreRole : ProjectKeyStore :=
  fun k => if k = fixtureKey then some pkNoStoreRole else none

/-- A claim carrying the matching public key and the matching secret. -/
def authWithSecret : Auth :=
  { client := some "raven-python", version := "7", secret_key := some "topsecret",
    public_key := some fixtureKey, is_public := false }

/-- The same claim without a secret. -/
def authNoSecret : Auth := { authWithSecret with secret_key := none }

/-- The same claim with a wrong (non-empty) secret. -/
def authWrongSecret : Auth := { authWithSecret with secret_key := some "wrong" }

/-- The same claim with an empty-string secret. -/
def authEmptySecret : Auth := { authWithSecret with secret_key := some "" }

/-- A request presenting both a `sentry_` query payload and a scheme-prefixed
`X-Sentry-Auth` header carrying the same credentials. -/
def reqBoth : Request :=
  { GET := [("sentry_key", "abc")],
    META := [("HTTP_X_SENTRY_AUTH", "Sentry sentry_key=abc, sentry_version=7")] }

/-- A request authenticating through query parameters, whose Origin header is the
literal string `"null"`. -/
def reqNullOrigin : Request :=
  { GET := [("sentry_key", "abc")], META := [("HTTP_ORIGIN", "null")] }

/-- The claim extracted from `reqNullOrigin`. -/
def authNullOrigin : Auth :=
  { client := none, version := "None", secret_key := none, public_key := some "abc",
    is_public := true }

/-- Both backing stores reachable. -/
def envOk : CacheEnv := { default_cache_ok := true, attachment_cache_ok := true }

/-- The payload cache unreachable. -/
def envNoCache : CacheEnv := { default_cache_ok := false, attachment_cache_ok := true }

/-- Empty initial stores and queue. -/
def stEmpty : IngestState := { default_cache := [], attachment_cache := [], queue := [] }

/-- A concrete event payload (wrapped in a canonical type, as some SDKs submit). -/
def eventFixture : EventData :=
  { event_id := "deadbeef", project := 7, canonical_wrapper := true }

/-- When every check of `project_key_from_auth` passes, resolution returns the
credential found by the lookup. -/
theorem project_key_from_auth_ok_of (store : ProjectKeyStore) (auth : Auth)
    (k : String) (pk : ProjectKey)
    (hk : auth.public_key = some k) (he : k.isEmpty = false)
    (hl : looks_like_api_key k = true) (hs : store k = some pk)
    (hc : constant_time_compare pk.secret_key (pyOr auth.secret_key pk.secret_key) = true)
    (ha : pk.is_active = true) (hr : pk.roles_store = true) :
    ClientApiHelper.project_key_from_auth store auth = .ok pk := by
  unfold ClientApiHelper.project_key_from_auth
  rw [hk]
  simp [pyTruthy, he, hl, hs, hc, ha, hr]

/-- Conversely, a successful resolution implies that every check passed on the
returned credential. -/
theorem project_key_from_auth_ok_inv (store : ProjectKeyStore) (auth : Auth)
    (pk : ProjectKey)
    (h : ClientApiHelper.project_key_from_auth store auth = .ok pk) :
    ∃ k, auth.public_key = some k ∧ k.isEmpty = false ∧ looks_like_api_key k = true ∧
      store k = some pk ∧
      constant_time_compare pk.secret_key (pyOr auth.secret_key pk.secret_key) = true ∧
      pk.is_active = true ∧ pk.roles_store = true := by
  unfold ClientApiHelper.project_key_from_auth at h
  cases hpk : auth.public_key with
  | none => rw [hpk] at h; simp [pyTruthy] at h
  | some k =>
    rw [hpk] at h
    simp only [Option.getD_some] at h
    refine ⟨k, rfl, ?_⟩
    repeat' split at h
    all_goals simp_all [pyTruthy]

/-- Every failure of `project_key_from_auth` is an `APIUnauthorized` carrying one of
the three messages of the source. -/
theorem project_key_from_auth_error_shape (store : ProjectKeyStore) (auth : Auth)
    (e : AdmissionError)
    (h : ClientApiHelper.project_key_from_auth store auth = .error e) :
    e = .apiUnauthorized "Invalid api key" ∨ e = .apiUnauthorized "API key is disabled" ∨
      e = .apiUnauthorized "Key does not allow event storage access" := by
  unfold ClientApiHelper.project_key_from_auth at h
  repeat' first
    | split at h
    | simp_all

/-- A non-truthy public key fails with the generic message. -/
theorem project_key_from_auth_invalid_of_not_truthy (store : ProjectKeyStore)
    (auth : Auth) (ht : pyTruthy auth.public_key = false) :
    ClientApiHelper.project_key_from_auth store auth =
      .error (.apiUnauthorized "Invalid api key") := by
  unfold ClientApiHelper.project_key_from_auth
  simp [ht]

/-- A public key failing the structural pattern fails with the generic message. -/
theorem project_key_from_auth_invalid_of_pattern (store : ProjectKeyStore)
    (auth : Auth) (k : String) (hk : auth.public_key = some k)
    (hl : looks_like_api_key k = false) :
    ClientApiHelper.project_key_from_auth store auth =
      .error (.apiUnauthorized "Invalid api key") := by
  unfold ClientApiHelper.project_key_from_auth
  rw [hk]
  by_cases he : k.isEmpty <;> simp [pyTruthy, he, hl]

/-- A store miss fails with the generic message. -/
theorem project_key_from_auth_invalid_of_miss (store : ProjectKeyStore)
    (auth : Auth) (k : String) (hk : auth.public_key = some k)
    (hs : store k = none) :
    ClientApiHelper.project_key_from_auth store auth =
      .error (.apiUnauthorized "Invalid api key") := by
  unfold ClientApiHelper.project_key_from_auth
  rw [hk]
  by_cases he : k.isEmpty <;> by_cases hl : looks_like_api_key k <;>
    simp [pyTruthy, he, hl, hs]

/-- A failing secret comparison fails with the generic message. -/
theorem project_key_from_auth_invalid_of_secret (store : ProjectKeyStore)
    (auth : Auth) (k : String) (pk : ProjectKey) (hk : auth.public_key = some k)
    (hs : store k = some pk)
    (hc : constant_time_compare pk.secret_key (pyOr auth.secret_key pk.secret_key) = false) :
    ClientApiHelper.project_key_from_auth store auth =
      .error (.apiUnauthorized "Invalid api key") := by
  unfold ClientApiHelper.project_key_from_auth
  rw [hk]
  by_cases he : k.isEmpty <;> by_cases hl : looks_like_api_key k <;>
    simp [pyTruthy, he, hl, hs, hc]

/-- Claim C3: when a claim supplies a (non-empty) secret and every other check
(key present, structural pattern, lookup hit, isActive, allowsStoreAccess) passes,
resolution succeeds iff the supplied secret equals the stored secret exactly; when
the claim supplies no secret, the secret check is treated as satisfied and
resolution succeeds iff all the other checks pass. -/
theorem C3_secret_check_semantics :
    (∀ (store : ProjectKeyStore) (auth : Auth) (k s : String) (pk : ProjectKey),
      auth.public_key = some k → auth.secret_key = some s → s.isEmpty = false →
      k.isEmpty = false → looks_like_api_key k = true → store k = some pk →
      pk.is_active = true → pk.roles_store = true →
      (ClientApiHelper.project_key_from_auth store auth = .ok pk ↔
        s = pk.secret_key)) ∧
    (∀ (store : ProjectKeyStore) (auth : Auth),
      auth.secret_key = none →
      ((∃ pk, ClientApiHelper.project_key_from_auth store auth = .ok pk) ↔
        ∃ k pk, auth.public_key = some k ∧ k.isEmpty = false ∧
          looks_like_api_key k = true ∧ store k = some pk ∧ pk.is_active = true ∧
          pk.roles_store = true)) := by
  constructor
  · intro store auth k s pk hk hsec hs he hl hst ha hr
    constructor
    · intro h
      obtain ⟨k2, hk2, _, _, _, hc, _, _⟩ := project_key_from_auth_ok_inv _ _ _ h
      rw [hk] at hk2
      rw [hsec] at hc
      simp [constant_time_compare, pyOr, pyTruthy, hs] at hc
      exact hc.symm
    · intro h
      refine project_key_from_auth_ok_of store auth k pk hk he hl hst ?_ ha hr
      simp [constant_time_compare, pyOr, pyTruthy, hsec, hs, h]
  · intro store auth hsec
    constructor
    · rintro ⟨pk, h⟩
      obtain ⟨k, hk, he, hl, hst, _, ha, hr⟩ := project_key_from_auth_ok_inv _ _ _ h
      exact ⟨k, pk, hk, he, hl, hst, ha, hr⟩
    · rintro ⟨k, pk, hk, he, hl, hst, ha, hr⟩
      refine ⟨pk, project_key_from_auth_ok_of store auth k pk hk he hl hst ?_ ha hr⟩
      simp [constant_time_compare, pyOr, pyTruthy, hsec]

/-- Witness for C3: the matching-secret claim resolves to `pkActive`; the
no-secret claim also resolves (all other checks pass). -/
theorem C3_secret_check_semantics_witness :
    ClientApiHelper.project_key_from_auth storeActive authWithSecret = .ok pkActive ∧
    ∃ pk, ClientApiHelper.project_key_from_auth storeActive authNoSecret = .ok pk := by
  constructor
  · exact (C3_secret_check_semantics.1 storeActive authWithSecret fixtureKey "topsecret"
      pkActive rfl rfl rfl rfl (by decide) (by simp [storeActive]) rfl rfl).mpr rfl
  · exact (C3_secret_check_semantics.2 storeActive authNoSecret rfl).mpr
      ⟨fixtureKey, pkActive, rfl, rfl, by decide, by simp [storeActive], rfl, rfl⟩

/-- Claim C10: an empty-string claim secret is treated exactly like an absent one —
the comparison runs against the stored secret itself and passes — so resolution
succeeds whenever the remaining checks pass, even when the stored secret is
non-empty. -/
theorem C10_empty_secret_treated_as_absent :
    ∀ (store : ProjectKeyStore) (auth : Auth) (k : String) (pk : ProjectKey),
      auth.secret_key = some "" →
      auth.public_key = some k → k.isEmpty = false → looks_like_api_key k = true →
      store k = some pk → pk.is_active = true → pk.roles_store = true →
      ClientApiHelper.project_key_from_auth store auth = .ok pk := by
  intro store auth k pk hsec hk he hl hst ha hr
  refine project_key_from_auth_ok_of store auth k pk hk he hl hst ?_ ha hr
  simp [constant_time_compare, pyOr, pyTruthy, hsec,
    show ("" : String).isEmpty = true from rfl]

/-- Witness for C10: the empty-secret claim resolves against a credential whose
stored secret is the non-empty `"topsecret"`. -/
theorem C10_empty_secret_treated_as_absent_witness :
    ClientApiHelper.project_key_from_auth storeActive authEmptySecret = .ok pkActive ∧
    pkActive.secret_key.isEmpty = false :=
  ⟨C10_empty_secret_treated_as_absent storeActive authEmptySecret fixtureKey pkActive
      rfl rfl rfl (by decide) (by simp [storeActive]) rfl rfl,
    rfl⟩

/-- Claim C4: a credential with `is_active = false` or with the store capability
flag false rejects every claim with an `APIUnauthorized` (the spec's
`Unauthenticated`), regardless of whether the key pair matches. -/
theorem C4_inactive_or_incapable_always_rejected :
    ∀ (store : ProjectKeyStore) (auth : Auth) (k : String) (pk : ProjectKey),
      auth.public_key = some k → store k = some pk →
      (pk.is_active = false ∨ pk.roles_store = false) →
      ∃ m, ClientApiHelper.project_key_from_auth store auth =
        .error (.apiUnauthorized m) := by
  intro store auth k pk hk hs hbad
  cases hres : ClientApiHelper.project_key_from_auth store auth with
  | ok pk2 =>
    obtain ⟨k2, hk2, _, _, hs2, _, ha2, hr2⟩ := project_key_from_auth_ok_inv _ _ _ hres
    rw [hk] at hk2
    obtain rfl : k = k2 := by simpa using hk2
    rw [hs] at hs2
    obtain rfl : pk = pk2 := by simpa using hs2
    rcases hbad with hb | hb <;> simp_all
  | error e =>
    rcases project_key_from_auth_error_shape _ _ _ hres with h2 | h2 | h2 <;>
      exact ⟨_, by rw [h2]⟩

/-- Witness for C4: the inactive credential rejects the claim whose key pair
matches exactly. -/
theorem C4_inactive_or_incapable_always_rejected_witness :
    ∃ m, ClientApiHelper.project_key_from_auth storeInactive authWithSecret =
      .error (.apiUnauthorized m) :=
  C4_inactive_or_incapable_always_rejected storeInactive authWithSecret fixtureKey
    pkInactive rfl (by simp [storeInactive]) (Or.inl rfl)

/-- Counterexample to C6 as stated: a wrong-secret failure and an
inactive-credential failure return errors that are not identical — both are
`APIUnauthorized`, but they carry distinct messages, so the returned error does
reveal which sub-check failed. -/
theorem C6_counterexample_distinct_messages :
    ClientApiHelper.project_key_from_auth storeActive authWrongSecret =
      .error (.apiUnauthorized "Invalid api key") ∧
    ClientApiHelper.project_key_from_auth storeInactive authWithSecret =
      .error (.apiUnauthorized "API key is disabled") ∧
    AdmissionError.apiUnauthorized "Invalid api key" ≠
      AdmissionError.apiUnauthorized "API key is disabled" := by
  refine ⟨by rfl, by rfl, by decide⟩

/-- Claim C6 (amended): every resolution failure is reported with the same error
class — `APIUnauthorized`, HTTP status 401 — and failures of the key checks
(missing key, malformed key, unknown key, wrong secret) all carry the identical
generic message "Invalid api key"; however, an inactive credential and a
credential lacking the store capability carry distinct messages naming those
conditions. -/
theorem C6_amended_generic_unauthorized :
    ∀ (store : ProjectKeyStore) (auth : Auth) (e : AdmissionError),
      ClientApiHelper.project_key_from_auth store auth = .error e →
      (∃ m, e = .apiUnauthorized m ∧ e.http_status = some 401) ∧
      ((pyTruthy auth.public_key = false ∨
          ∃ k, auth.public_key = some k ∧
            (looks_like_api_key k = false ∨ store k = none ∨
              ∃ pk, store k = some pk ∧
                constant_time_compare pk.secret_key
                  (pyOr auth.secret_key pk.secret_key) = false)) →
        e = .apiUnauthorized "Invalid api key") := by
  intro store auth e h
  constructor
  · rcases project_key_from_auth_error_shape _ _ _ h with h2 | h2 | h2 <;>
      exact ⟨_, h2, by rw [h2]; rfl⟩
  · rintro (ht | ⟨k, hk, hl | hs | ⟨pk, hs, hc⟩⟩)
    · rw [project_key_from_auth_invalid_of_not_truthy store auth ht] at h
      injection h with h2
      exact h2.symm
    · rw [project_key_from_auth_invalid_of_pattern store auth k hk hl] at h
      injection h with h2
      exact h2.symm
    · rw [project_key_from_auth_invalid_of_miss store auth k hk hs] at h
      injection h with h2
      exact h2.symm
    · rw [project_key_from_auth_invalid_of_secret store auth k pk hk hs hc] at h
      injection h with h2
      exact h2.symm

/-- Witness for the amended C6, at the concrete wrong-secret claim. -/
theorem C6_amended_generic_unauthorized_witness :
    ∃ m, AdmissionError.apiUnauthorized "Invalid api key" = .apiUnauthorized m ∧
      AdmissionError.http_status (.apiUnauthorized "Invalid api key") = some 401 :=
  (C6_amended_generic_unauthorized storeActive authWrongSecret
    (.apiUnauthorized "Invalid api key") (by rfl)).1

/-- Counterexample to C5 as stated: a capability-denied rejection (credential
lacking the store-access role) is an `APIUnauthorized` with HTTP status 401, not
the claimed 403. -/
theorem C5_counterexample_capability_is_401 :
    ClientApiHelper.project_key_from_auth storeNoStoreRole authWithSecret =
      .error (.apiUnauthorized "Key does not allow event storage access") ∧
    AdmissionError.http_status
      (.apiUnauthorized "Key does not allow event storage access") = some 401 ∧
    (some 401 : Option Nat) ≠ some 403 := by
  refine ⟨by rfl, rfl, by decide⟩

/-- Claim C5 (amended): the error classes carry fixed HTTP status classes — 401
for `APIUnauthorized`, 403 for `APIForbidden`, 400 for `APIError` and for the
malformed-request conflict — but every credential-resolution failure, including
the capability-denied case, is reported as `APIUnauthorized` with status 401,
not 403. -/
theorem C5_amended_status_classes :
    (∀ m, AdmissionError.http_status (.apiUnauthorized m) = some 401) ∧
    (∀ m, AdmissionError.http_status (.apiForbidden m) = some 403) ∧
    (∀ m, AdmissionError.http_status (.apiError m) = some 400) ∧
    (∀ m, AdmissionError.http_status (.suspiciousOperation m) = some 400) ∧
    (∀ (store : ProjectKeyStore) (auth : Auth) (e : AdmissionError),
      ClientApiHelper.project_key_from_auth store auth = .error e →
      AdmissionError.http_status e = some 401) := by
  refine ⟨fun _ => rfl, fun _ => rfl, fun _ => rfl, fun _ => rfl, ?_⟩
  intro store auth e h
  rcases project_key_from_auth_error_shape _ _ _ h with h2 | h2 | h2 <;> rw [h2] <;> rfl

/-- Witness for the amended C5, at the concrete capability-denied claim. -/
theorem C5_amended_status_classes_witness :
    AdmissionError.http_status
      (.apiUnauthorized "Key does not allow event storage access") = some 401 :=
  C5_amended_status_classes.2.2.2.2 storeNoStoreRole authWithSecret
    (.apiUnauthorized "Key does not allow event storage access") (by rfl)

/-- Claim C2: a request presenting both query-parameter credentials (keys with the
reserved `sentry_` prefix) and a scheme-prefixed credential header is rejected
with the `SuspiciousOperation` conflict (the spec's `MalformedRequest`); moreover
the composed extract-then-resolve flow returns that same rejection for every
credential store, so no credential lookup can have influenced the outcome. -/
theorem C2_conflicting_payloads_rejected :
    ∀ req : Request,
      queryAuthParams req ≠ [] →
      (hasSentryScheme (metaGetD req "HTTP_X_SENTRY_AUTH") = true ∨
        hasSentryScheme (metaGetD req "HTTP_AUTHORIZATION") = true) →
      ClientAuthHelper.auth_from_request req =
        .error (.suspiciousOperation "Multiple authentication payloads were detected.") ∧
      ∀ store : ProjectKeyStore,
        (ClientAuthHelper.auth_from_request req).bind
            (ClientApiHelper.project_key_from_auth store) =
          .error (.suspiciousOperation "Multiple authentication payloads were detected.") := by
  intro req hq hdr
  have hq2 : (queryAuthParams req).isEmpty = false := by
    cases hqq : queryAuthParams req with
    | nil => exact absurd hqq hq
    | cons a t => rfl
  have hp : authPayload req =
      .error (.suspiciousOperation "Multiple authentication payloads were detected.") := by
    unfold authPayload
    rcases hdr with h | h
    · simp [h, hq2]
    · by_cases h1 : hasSentryScheme (metaGetD req "HTTP_X_SENTRY_AUTH")
      · simp [h1, hq2]
      · simp [h1, h, hq2]
  have hmain : ClientAuthHelper.auth_from_request req =
      .error (.suspiciousOperation "Multiple authentication payloads were detected.") := by
    unfold ClientAuthHelper.auth_from_request
    rw [hp]
  exact ⟨hmain, fun store => by rw [hmain]; rfl⟩

/-- Witness for C2, at the concrete dual-payload request (against the concrete
`storeActive` for the composed flow). -/
theorem C2_conflicting_payloads_rejected_witness :
    ClientAuthHelper.auth_from_request reqBoth =
      .error (.suspiciousOperation "Multiple authentication payloads were detected.") ∧
    (ClientAuthHelper.auth_from_request reqBoth).bind
        (ClientApiHelper.project_key_from_auth storeActive) =
      .error (.suspiciousOperation "Multiple authentication payloads were detected.") := by
  have h := C2_conflicting_payloads_rejected reqBoth (by decide) (Or.inl (by decide))
  exact ⟨h.1, h.2 storeActive⟩

/-- Equation lemma: when the chosen authentication payload is non-empty,
`auth_from_request` returns the `Auth` record built from it. -/
theorem auth_from_request_ok_eq (req : Request) (result : List (String × String))
    (hp : authPayload req = .ok result) (hres : result.isEmpty = false) :
    ClientAuthHelper.auth_from_request req = .ok
      { client :=
          if pyTruthy (dictGet result "sentry_client") then dictGet result "sentry_client"
          else req.META.lookup "HTTP_USER_AGENT"
        version :=
          match dictGet result "sentry_version" with
          | some v => v
          | none => "None"
        secret_key := dictGet result "sentry_secret"
        public_key := dictGet result "sentry_key"
        is_public := pyTruthy (ClientAuthHelper.origin_from_request req) } := by
  unfold ClientAuthHelper.auth_from_request
  rw [hp]
  simp [hres]

/-- Claim C9: when the Origin header is the literal string `"null"`, the origin
derivation short-circuits to `"null"` — the hypothesis constrains only the
`HTTP_ORIGIN` entry, so the result holds for every Referer value without
consulting the Referer fallback — and any successfully extracted claim has
`is_public = true`. -/
theorem C9_null_origin_is_public :
    ∀ req : Request, req.META.lookup "HTTP_ORIGIN" = some "null" →
      ClientAuthHelper.origin_from_request req = some "null" ∧
      ∀ a, ClientAuthHelper.auth_from_request req = .ok a → a.is_public = true := by
  intro req ho
  have h1 : ClientAuthHelper.origin_from_request req = some "null" := by
    unfold ClientAuthHelper.origin_from_request
    simp [ho]
  refine ⟨h1, ?_⟩
  intro a ha
  cases hp : authPayload req with
  | error e =>
    unfold ClientAuthHelper.auth_from_request at ha
    rw [hp] at ha
    exact absurd ha (by simp)
  | ok result =>
    cases hres : result.isEmpty with
    | true =>
      unfold ClientAuthHelper.auth_from_request at ha
      rw [hp] at ha
      simp [hres] at ha
    | false =>
      rw [auth_from_request_ok_eq req result hp hres] at ha
      injection ha with h2
      rw [← h2]
      simp [h1, pyTruthy, show ("null" : String).isEmpty = false from rfl]

/-- Witness for C9, at the concrete null-Origin request. -/
theorem C9_null_origin_is_public_witness :
    ClientAuthHelper.origin_from_request reqNullOrigin = some "null" ∧
    authNullOrigin.is_public = true := by
  have h := C9_null_origin_is_public reqNullOrigin rfl
  exact ⟨h.1, h.2 authNullOrigin (by rfl)⟩

/-- Claim C1: if the payload-cache write fails, the insert aborts with
`cacheUnavailable` and no task is enqueued; any failing run leaves the queue
unchanged; and every successful run enqueues exactly one task whose `cache_key`
resolves in the payload cache it has just written. -/
theorem C1_task_only_after_cache_write :
    ∀ (env : CacheEnv) (now : Nat) (st : IngestState) (data : EventData)
      (start_time : Option Nat) (fr : Bool) (atts : Option Attachments),
      (env.default_cache_ok = false →
        ClientApiHelper.insert_data_to_database env now st data start_time fr atts =
          (st, some .cacheUnavailable)) ∧
      (∀ st2 e,
        ClientApiHelper.insert_data_to_database env now st data start_time fr atts =
          (st2, some e) → st2.queue = st.queue) ∧
      (∀ st2,
        ClientApiHelper.insert_data_to_database env now st data start_time fr atts =
          (st2, none) →
        ∃ t, st2.queue = t :: st.queue ∧
          cacheGet st2.default_cache t.cache_key ≠ none) := by
  intro env now st data stime fr atts
  obtain ⟨dok, aok⟩ := env
  refine ⟨?_, ?_, ?_⟩
  · intro h
    cases dok with
    | false => rfl
    | true => simp at h
  · intro st2 e h
    cases dok with
    | false =>
      simp [ClientApiHelper.insert_data_to_database] at h
      rw [← h.1]
    | true =>
      cases atts with
      | none =>
        simp [ClientApiHelper.insert_data_to_database, enqueueIngestTask] at h
      | some a =>
        cases aok with
        | false =>
          simp [ClientApiHelper.insert_data_to_database] at h
          rw [← h.1]
        | true =>
          simp [ClientApiHelper.insert_data_to_database, enqueueIngestTask] at h
  · intro st2 h
    cases dok with
    | false => simp [ClientApiHelper.insert_data_to_database] at h
    | true =>
      cases atts with
      | none =>
        simp [ClientApiHelper.insert_data_to_database, enqueueIngestTask] at h
        subst h
        refine ⟨_, rfl, ?_⟩
        simp [cacheGet, cacheSet, List.lookup]
      | some a =>
        cases aok with
        | false => simp [ClientApiHelper.insert_data_to_database] at h
        | true =>
          simp [ClientApiHelper.insert_data_to_database, enqueueIngestTask] at h
          subst h
          refine ⟨_, rfl, ?_⟩
          simp [cacheGet, cacheSet, List.lookup]

/-- Witness for C1: with the payload cache unreachable the insert aborts with
`cacheUnavailable` and an unchanged state; with it reachable, one task is
enqueued and its key resolves in the payload cache. -/
theorem C1_task_only_after_cache_write_witness :
    (ClientApiHelper.insert_data_to_database envNoCache 100 stEmpty eventFixture
        none false none = (stEmpty, some .cacheUnavailable)) ∧
    ∃ t, (ClientApiHelper.insert_data_to_database envOk 100 stEmpty eventFixture
        none false none).1.queue = t :: stEmpty.queue ∧
      cacheGet (ClientApiHelper.insert_data_to_database envOk 100 stEmpty eventFixture
          none false none).1.default_cache t.cache_key ≠ none :=
  ⟨(C1_task_only_after_cache_write envNoCache 100 stEmpty eventFixture none false none).1
      rfl,
    (C1_task_only_after_cache_write envOk 100 stEmpty eventFixture none false none).2.2
      _ rfl⟩

/-- Claim C7: every successful admission writes the payload under the fingerprint
key with the fixed one-hour (3600 s) timeout; a non-null attachments argument is
written under the same key with the same timeout; a null attachments argument
causes no attachment-cache write and no error. -/
theorem C7_fixed_ttl_and_optional_attachments :
    ∀ (env : CacheEnv) (now : Nat) (st : IngestState) (data : EventData)
      (stime : Option Nat) (fr : Bool) (atts : Option Attachments),
      env.default_cache_ok = true →
      (atts = none →
        ∃ st2,
          ClientApiHelper.insert_data_to_database env now st data stime fr atts =
            (st2, none) ∧
          cacheGet st2.default_cache (cache_key_for_event (canonicalizeEvent data)) =
            some (canonicalizeEvent data, 3600) ∧
          st2.attachment_cache = st.attachment_cache) ∧
      (∀ a, atts = some a → env.attachment_cache_ok = true →
        ∃ st2,
          ClientApiHelper.insert_data_to_database env now st data stime fr atts =
            (st2, none) ∧
          cacheGet st2.default_cache (cache_key_for_event (canonicalizeEvent data)) =
            some (canonicalizeEvent data, 3600) ∧
          cacheGet st2.attachment_cache (cache_key_for_event (canonicalizeEvent data)) =
            some (a, 3600)) := by
  intro env now st data stime fr atts hd
  obtain ⟨dok, aok⟩ := env
  cases dok with
  | false => simp at hd
  | true =>
    constructor
    · rintro rfl
      refine ⟨_, rfl, ?_, rfl⟩
      simp [cacheGet, cacheSet, List.lookup]
    · rintro a rfl hat
      cases aok with
      | false => simp at hat
      | true =>
        refine ⟨_, rfl, ?_, ?_⟩ <;> simp [cacheGet, cacheSet, List.lookup]

/-- Witness for C7: concrete runs without and with an attachment. -/
theorem C7_fixed_ttl_and_optional_attachments_witness :
    (∃ st2,
      ClientApiHelper.insert_data_to_database envOk 100 stEmpty eventFixture
        none false none = (st2, none) ∧
      cacheGet st2.default_cache (cache_key_for_event (canonicalizeEvent eventFixture)) =
        some (canonicalizeEvent eventFixture, 3600) ∧
      st2.attachment_cache = stEmpty.attachment_cache) ∧
    (∃ st2,
      ClientApiHelper.insert_data_to_database envOk 100 stEmpty eventFixture
        none false (some ["minidump"]) = (st2, none) ∧
      cacheGet st2.default_cache (cache_key_for_event (canonicalizeEvent eventFixture)) =
        some (canonicalizeEvent eventFixture, 3600) ∧
      cacheGet st2.attachment_cache (cache_key_for_event (canonicalizeEvent eventFixture)) =
        some (["minidump"], 3600)) :=
  ⟨(C7_fixed_ttl_and_optional_attachments envOk 100 stEmpty eventFixture none false
      none rfl).1 rfl,
    (C7_fixed_ttl_and_optional_attachments envOk 100 stEmpty eventFixture none false
      (some ["minidump"]) rfl).2 ["minidump"] rfl rfl⟩

/-- Claim C8: every successfully cached event enqueues a task whose start time is
the caller-supplied one when given and the admission wall clock otherwise, whose
handler is the reprocessing one iff `from_reprocessing` is set, and which carries
the fingerprint cache key and the event's id. -/
theorem C8_task_start_time_and_dispatch :
    ∀ (env : CacheEnv) (now : Nat) (st : IngestState) (data : EventData)
      (stime : Option Nat) (fr : Bool) (atts : Option Attachments) (st2 : IngestState),
      ClientApiHelper.insert_data_to_database env now st data stime fr atts =
        (st2, none) →
      ∃ t : IngestTask, st2.queue = t :: st.queue ∧
        t.start_time = stime.getD now ∧
        (stime = none → t.start_time = now) ∧
        (∀ s, stime = some s → t.start_time = s) ∧
        t.handler = (if fr then TaskHandler.preprocess_event_from_reprocessing
          else TaskHandler.preprocess_event) ∧
        t.cache_key = cache_key_for_event (canonicalizeEvent data) ∧
        t.event_id = data.event_id := by
  intro env now st data stime fr atts st2 h
  obtain ⟨dok, aok⟩ := env
  cases dok with
  | false => simp [ClientApiHelper.insert_data_to_database] at h
  | true =>
    cases atts with
    | none =>
      simp [ClientApiHelper.insert_data_to_database, enqueueIngestTask] at h
      subst h
      refine ⟨_, rfl, rfl, ?_, ?_, rfl, rfl, rfl⟩
      · rintro rfl; rfl
      · rintro s hs
        rw [hs]
        rfl
    | some a =>
      cases aok with
      | false => simp [ClientApiHelper.insert_data_to_database] at h
      | true =>
        simp [ClientApiHelper.insert_data_to_database, enqueueIngestTask] at h
        subst h
        refine ⟨_, rfl, rfl, ?_, ?_, rfl, rfl, rfl⟩
        · rintro rfl; rfl
        · rintro s hs
          rw [hs]
          rfl

/-- Witness for C8: a reprocessing admission with a caller-supplied start time. -/
theorem C8_task_start_time_and_dispatch_witness :
    ∃ t : IngestTask,
      (ClientApiHelper.insert_data_to_database envOk 100 stEmpty eventFixture
        (some 55) true none).1.queue = t :: stEmpty.queue ∧
      t.start_time = (some 55 : Option Nat).getD 100 ∧
      ((some 55 : Option Nat) = none → t.start_time = 100) ∧
      (∀ s, (some 55 : Option Nat) = some s → t.start_time = s) ∧
      t.handler = (if true then TaskHandler.preprocess_event_from_reprocessing
        else TaskHandler.preprocess_event) ∧
      t.cache_key = cache_key_for_event (canonicalizeEvent eventFixture) ∧
      t.event_id = eventFixture.event_id :=
  C8_task_start_time_and_dispatch envOk 100 stEmpty eventFixture (some 55) true none
    _ rfl
